import Mathlib

/-!
Verification of the keyless-entry receiver firmware (src/car/car.ino).

The file embeds the authentication core of the receiver: the rolling-code
generator, the TOTP generator, the replay-window validator, the startup
counter recovery and the frame-length gate of the main loop.  The two
cryptographic library primitives (the AES-128 block encryption from the
Crypto library and the HMAC-SHA256 digest) are external library code, not
code of this repository; they are abstracted as a structure of opaque-in-
the-mathematical-sense functions together with the byte-level contracts
the library guarantees (output lengths and byte ranges).  Everything the
repository itself computes is translated literally from the source.

Machine integers are modelled as Nat with explicit reduction modulo 2^32
where the C code uses uint32_t arithmetic.
-/

/-- 2^32, the modulus of uint32_t arithmetic. -/
def U32 : Nat := 4294967296

/-- Wrapping uint32_t subtraction: the value of `a - b` in C when both
operands are uint32_t. -/
def sub32 (a b : Nat) : Nat :=
  (a % U32 + (U32 - b % U32)) % U32

/-- Source constant CAR_ID (car.ino line 23). -/
def CAR_ID : Nat := 0xCAFEBABE

/-- Source constant KEYFOB_ID (car.ino line 24). -/
def KEYFOB_ID : Nat := 0x12345678

/-- Source constant EEPROM_SAVE_INTERVAL (car.ino line 20). -/
def EEPROM_SAVE_INTERVAL : Nat := 10

/-- Source constant ROLLING_WINDOW (car.ino line 21). -/
def ROLLING_WINDOW : Nat := 256

/-- The cryptographic library primitives used by car.ino, abstracted as
functions from byte lists to byte lists.  `encryptBlock` is AES-128 keyed
with the fixed ROLLING_KEY (the code calls aes.setKey with the same
constant key before every encryption, so the key is baked in).
`hmacSha256` is the HMAC-SHA256 digest keyed with the fixed TOTP_SECRET
(resetHMAC / update / finalizeHMAC in the code).  The proof fields record
the library contracts: a 16-byte block output, a 32-byte digest, and all
output entries are bytes. -/
structure CryptoLib where
  encryptBlock : List Nat → List Nat
  hmacSha256 : List Nat → List Nat
  encryptBlock_length : ∀ b, (encryptBlock b).length = 16
  encryptBlock_bytes : ∀ b, ∀ x ∈ encryptBlock b, x < 256
  hmacSha256_length : ∀ m, (hmacSha256 m).length = 32
  hmacSha256_bytes : ∀ m, ∀ x ∈ hmacSha256 m, x < 256

/-- Byte `i` (little-endian position) of the natural number `n`. -/
def byteAt (n i : Nat) : Nat := (n >>> (8 * i)) &&& 0xFF

/-- The 8-byte big-endian serialization of a uint32 epoch, exactly as the
loop in generateTOTP builds `msg` (car.ino lines 104-108): msg[7] is the
low byte, msg[0] the highest (always zero for a 32-bit epoch). -/
def serializeEpochBE (e : Nat) : List Nat :=
  [byteAt e 7, byteAt e 6, byteAt e 5, byteAt e 4,
   byteAt e 3, byteAt e 2, byteAt e 1, byteAt e 0]

/-- generateRollingCode (car.ino lines 84-99): place the uint32 counter in
the first four bytes of a zeroed 16-byte block (memcpy of a little-endian
uint32), AES-encrypt the block, and reinterpret the first four output
bytes as a little-endian uint32. -/
def generateRollingCode (C : CryptoLib) (counter : Nat) : Nat :=
  let c := counter % U32
  let input := [byteAt c 0, byteAt c 1, byteAt c 2, byteAt c 3,
                0, 0, 0, 0, 0, 0, 0, 0, 0, 0, 0, 0]
  let out := C.encryptBlock input
  (out.getD 0 0) ||| ((out.getD 1 0) <<< 8) |||
    ((out.getD 2 0) <<< 16) ||| ((out.getD 3 0) <<< 24)

/-- generateTOTP (car.ino lines 101-126): HMAC-SHA256 of the 8-byte
big-endian epoch, dynamic truncation by the low nibble of the last digest
byte, top bit of the selected 4-byte big-endian word cleared via the 0x7F
mask on its leading byte, reduced modulo 1,000,000. -/
def generateTOTP (C : CryptoLib) (epoch : Nat) : Nat :=
  let e := epoch % U32
  let hash := C.hmacSha256 (serializeEpochBE e)
  let offset := (hash.getD 31 0) &&& 0x0F
  let binary := (((hash.getD offset 0) &&& 0x7F) <<< 24) |||
                (((hash.getD (offset + 1) 0) &&& 0xFF) <<< 16) |||
                (((hash.getD (offset + 2) 0) &&& 0xFF) <<< 8) |||
                ((hash.getD (offset + 3) 0) &&& 0xFF)
  binary % 1000000

/-- The time-code construction in the words of the spec (section 4.2):
serialize the uint32 epoch as 8 bytes big-endian, take the keyed digest,
let o be the low nibble of the last digest byte, read the 4 digest bytes
starting at o as a big-endian 32-bit value with its top bit cleared
(the top bit of a big-endian 32-bit value is bit 7 of its leading byte),
and reduce modulo 1,000,000.  Stated against the same abstract digest so
that it can be compared with the source translation generateTOTP. -/
def timeCodeSpec (C : CryptoLib) (epoch : Nat) : Nat :=
  let digest := C.hmacSha256 (serializeEpochBE (epoch % U32))
  let o := (digest.getD (digest.length - 1) 0) &&& 0x0F
  let word := (((digest.getD o 0) &&& 0x7F) <<< 24) |||
              ((digest.getD (o + 1) 0) <<< 16) |||
              ((digest.getD (o + 2) 0) <<< 8) |||
              (digest.getD (o + 3) 0)
  word % 1000000

/-- The authentication state owned by the receiver: the two globals
lastRollingCounter and lastSavedCounter (car.ino lines 47-48). -/
structure AuthState where
  lastRollingCounter : Nat
  lastSavedCounter : Nat
deriving DecidableEq

/-- The wire packet (car.ino lines 39-45). -/
structure Packet where
  carID : Nat
  keyfobID : Nat
  action : Nat
  rollingCode : Nat
  totp : Nat
deriving DecidableEq

/-- The terminal outcome of a validation.  The source returns a bool; the
four constructors correspond to its four distinct exit paths: the ID
check (line 135), the TOTP success returns (lines 168 and 177), the TOTP
mismatch return after sending the sync signal (line 205), and the
window-exhausted return (line 215). -/
inductive Outcome where
  | Accepted
  | RejectedIdMismatch
  | RejectedTimeCodeMismatch
  | ReplayWindowExhausted
deriving DecidableEq

/-- Everything observable about one call to validatePacket: the outcome,
the post-call authentication state, whether EEPROM.put/commit ran, whether
the resynchronization signal was transmitted, and how many times each
crypto generator was invoked. -/
structure ValidateResult where
  outcome : Outcome
  state : AuthState
  didSave : Bool
  resyncSent : Bool
  rollingCalls : Nat
  totpCalls : Nat
deriving DecidableEq

/-- The window search loop of validatePacket (car.ino lines 143-212),
written with an explicit fuel that starts at ROLLING_WINDOW: test
offsets ascending from `off`, with wrapping uint32 arithmetic on the
candidate counter, and stop at the first offset whose rolling code equals
the packet field. -/
def windowSearch (C : CryptoLib) (L rc : Nat) : Nat → Nat → Option Nat
  | _, 0 => none
  | off, fuel + 1 =>
    if rc == generateRollingCode C ((L + off) % U32) then some off
    else windowSearch C L rc (off + 1) fuel

/-- The state commit on a rolling-code match (car.ino lines 150-158):
lastRollingCounter becomes testCounter + 1 (uint32), and when it has
advanced by at least EEPROM_SAVE_INTERVAL past lastSavedCounter the value
is written to EEPROM and lastSavedCounter catches up.  Returns the new
state and whether the save happened. -/
def commitState (s : AuthState) (testCounter : Nat) : AuthState × Bool :=
  let newL := (testCounter + 1) % U32
  if EEPROM_SAVE_INTERVAL ≤ sub32 newL s.lastSavedCounter then
    (⟨newL, newL⟩, true)
  else
    (⟨newL, s.lastSavedCounter⟩, false)

/-- validatePacket (car.ino lines 129-216).  Note the order of operations
in the source: on the first rolling-code match the counter is committed
(and possibly persisted) BEFORE the TOTP is checked, so the
RejectedTimeCodeMismatch path also carries the committed state.  `millis`
is the uint32 millisecond clock; the current epoch is millis / 1000 / 30
(line 163). -/
def validatePacket (C : CryptoLib) (s : AuthState) (pkt : Packet) (millis : Nat) :
    ValidateResult :=
  if pkt.carID ≠ CAR_ID ∨ pkt.keyfobID ≠ KEYFOB_ID then
    ⟨.RejectedIdMismatch, s, false, false, 0, 0⟩
  else
    match windowSearch C s.lastRollingCounter pkt.rollingCode 0 ROLLING_WINDOW with
    | none => ⟨.ReplayWindowExhausted, s, false, false, ROLLING_WINDOW, 0⟩
    | some off =>
      let cs := commitState s ((s.lastRollingCounter + off) % U32)
      let currentEpoch := (millis % U32) / 1000 / 30
      if pkt.totp = generateTOTP C currentEpoch then
        ⟨.Accepted, cs.1, cs.2, false, off + 1, 1⟩
      else if pkt.totp = generateTOTP C (sub32 currentEpoch 1) then
        ⟨.Accepted, cs.1, cs.2, false, off + 1, 2⟩
      else
        ⟨.RejectedTimeCodeMismatch, cs.1, cs.2, true, off + 1, 2⟩

/-- The startup counter recovery in setup (car.ino lines 250-260): load
the counter; if it equals the erased sentinel 0xFFFFFFFF or exceeds
0xFFFFFF00 (the guard band below the 32-bit maximum) reset it to zero and
immediately write it back; then lastSavedCounter is set to the resulting
counter.  Returns the initial state and whether the immediate save ran. -/
def startupState (loaded : Nat) : AuthState × Bool :=
  if loaded = 0xFFFFFFFF ∨ 0xFFFFFF00 < loaded then
    (⟨0, 0⟩, true)
  else
    (⟨loaded, loaded⟩, false)

/-- Run a sequence of validations, threading the state, and collect the
per-call results in order. -/
def runSeq (C : CryptoLib) (s : AuthState) : List (Packet × Nat) → List ValidateResult
  | [] => []
  | (p, m) :: rest =>
    let r := validatePacket C s p m
    r :: runSeq C r.state rest

/-- Reinterpret four consecutive frame bytes as a little-endian uint32,
as the memcpy of the raw buffer onto the struct does. -/
def le32At (frame : List Nat) (i : Nat) : Nat :=
  (frame.getD i 0) ||| ((frame.getD (i + 1) 0) <<< 8) |||
    ((frame.getD (i + 2) 0) <<< 16) ||| ((frame.getD (i + 3) 0) <<< 24)

/-- sizeof(Packet) for the struct of car.ino lines 39-45 on the target
(ESP8266, 4-byte alignment, no packing attribute): members at offsets 0,
4, 8, then the uint8 is followed by 3 padding bytes so the next uint32 is
4-byte aligned at offset 12, the last at 16; total size 20 bytes, not the
17 bytes of payload. -/
def sizeofPacket : Nat := 20

/-- memcpy of the received frame onto the struct overlay (car.ino line
296), per the layout described at sizeofPacket: bytes 9-11 are padding. -/
def parsePacket (frame : List Nat) : Packet :=
  ⟨le32At frame 0, le32At frame 4, frame.getD 8 0, le32At frame 12, le32At frame 16⟩

/-- Outcome of the main loop on one received frame. -/
inductive FrameResult where
  | framingError
  | validated (r : ValidateResult)
deriving DecidableEq

/-- The frame handling of loop (car.ino lines 291-313): only a frame
whose length equals sizeof(Packet) is parsed and validated; any other
length is reported as a wrong packet size and dropped with no state
change. -/
def processFrame (C : CryptoLib) (s : AuthState) (frame : List Nat) (millis : Nat) :
    FrameResult × AuthState :=
  if frame.length = sizeofPacket then
    let r := validatePacket C s (parsePacket frame) millis
    (.validated r, r.state)
  else
    (.framingError, s)

/-- The states the receiver can be in: any startup load result, closed
under validation calls. -/
inductive Reachable (C : CryptoLib) : AuthState → Prop where
  | boot (loaded : Nat) : Reachable C (startupState loaded).1
  | step {s : AuthState} (h : Reachable C s) (pkt : Packet) (millis : Nat) :
      Reachable C (validatePacket C s pkt millis).state

/-! ## A concrete CryptoLib instance

Used to instantiate the abstract library primitives on concrete inputs.
It satisfies the byte-level library contracts; it is of course not AES or
SHA-256, which are external library code, but every theorem below that is
stated for all CryptoLib instances holds for it. -/

/-- A concrete stand-in block cipher: truncate or zero-pad the input
block to 16 bytes (reducing entries to bytes). -/
def sampleEncrypt (b : List Nat) : List Nat :=
  ((b.map (· % 256)) ++ List.replicate 16 0).take 16

/-- A concrete stand-in keyed digest: reverse the message, reduce entries
to bytes and zero-pad to 32 bytes. -/
def sampleDigest (m : List Nat) : List Nat :=
  ((m.reverse.map (· % 256)) ++ List.replicate 32 0).take 32

lemma sampleEncrypt_length (b : List Nat) : (sampleEncrypt b).length = 16 := by
  simp [sampleEncrypt]

lemma sampleDigest_length (m : List Nat) : (sampleDigest m).length = 32 := by
  simp [sampleDigest]

lemma sampleEncrypt_bytes (b : List Nat) : ∀ x ∈ sampleEncrypt b, x < 256 := by
  intro x hx
  have hx2 := List.take_subset _ _ hx
  rcases List.mem_append.mp hx2 with h | h
  · rcases List.mem_map.mp h with ⟨y, _, rfl⟩
    exact Nat.mod_lt _ (by norm_num)
  · rw [List.eq_of_mem_replicate h]; norm_num

lemma sampleDigest_bytes (m : List Nat) : ∀ x ∈ sampleDigest m, x < 256 := by
  intro x hx
  have hx2 := List.take_subset _ _ hx
  rcases List.mem_append.mp hx2 with h | h
  · rcases List.mem_map.mp h with ⟨y, _, rfl⟩
    exact Nat.mod_lt _ (by norm_num)
  · rw [List.eq_of_mem_replicate h]; norm_num

/-- The concrete CryptoLib instance built from the stand-ins. -/
def sampleCrypto : CryptoLib :=
  ⟨sampleEncrypt, sampleDigest, sampleEncrypt_length, sampleEncrypt_bytes,
   sampleDigest_length, sampleDigest_bytes⟩

/-! ## Arithmetic and search helper lemmas -/

set_option maxRecDepth 10000

lemma byteMask255 : ∀ b < 256, b &&& 255 = b := by decide

lemma getD_lt_of_bytes (l : List Nat) (h : ∀ x ∈ l, x < 256) (i : Nat) :
    l.getD i 0 < 256 := by
  by_cases hi : i < l.length
  · rw [List.getD_eq_getElem l 0 hi]
    exact h _ (List.getElem_mem hi)
  · rw [List.getD_eq_default l 0 (by omega)]
    norm_num

lemma sub32_self_add (S i : Nat) (hS : S < U32) (hi : i < U32) :
    sub32 ((S + i) % U32) S = i := by
  simp only [sub32, U32] at *
  omega

lemma sub32_small (a b : Nat) (ha : a < U32) (h : b ≤ a) : sub32 a b = a - b := by
  simp only [sub32, U32] at *
  omega

lemma windowSearch_eq_some (C : CryptoLib) (L rc : Nat) :
    ∀ fuel off k, off ≤ k → k < off + fuel →
      rc = generateRollingCode C ((L + k) % U32) →
      (∀ j, off ≤ j → j < k → rc ≠ generateRollingCode C ((L + j) % U32)) →
      windowSearch C L rc off fuel = some k := by
  intro fuel
  induction fuel with
  | zero => intro off k h1 h2 _ _; omega
  | succ n ih =>
    intro off k h1 h2 hk hmin
    show (if rc == generateRollingCode C ((L + off) % U32) then some off
          else windowSearch C L rc (off + 1) n) = some k
    by_cases he : off = k
    · subst he
      rw [← hk]
      simp
    · have hne := hmin off le_rfl (by omega)
      rw [beq_eq_false_iff_ne.mpr hne]
      simp only [Bool.false_eq_true, if_false]
      exact ih (off + 1) k (by omega) (by omega) hk
        (fun j hj1 hj2 => hmin j (by omega) hj2)

lemma windowSearch_eq_none (C : CryptoLib) (L rc : Nat) :
    ∀ fuel off,
      (∀ j, off ≤ j → j < off + fuel → rc ≠ generateRollingCode C ((L + j) % U32)) →
      windowSearch C L rc off fuel = none := by
  intro fuel
  induction fuel with
  | zero => intro off _; rfl
  | succ n ih =>
    intro off hmin
    show (if rc == generateRollingCode C ((L + off) % U32) then some off
          else windowSearch C L rc (off + 1) n) = none
    rw [beq_eq_false_iff_ne.mpr (hmin off le_rfl (by omega))]
    simp only [Bool.false_eq_true, if_false]
    exact ih (off + 1) (fun j hj1 hj2 => hmin j (by omega) (by omega))

lemma windowSearch_bounds (C : CryptoLib) (L rc : Nat) :
    ∀ fuel off k, windowSearch C L rc off fuel = some k → off ≤ k ∧ k < off + fuel := by
  intro fuel
  induction fuel with
  | zero => intro off k h; exact absurd h (by simp [windowSearch])
  | succ n ih =>
    intro off k h
    rw [show windowSearch C L rc off (n + 1)
          = (if rc == generateRollingCode C ((L + off) % U32) then some off
             else windowSearch C L rc (off + 1) n) from rfl] at h
    by_cases hc : (rc == generateRollingCode C ((L + off) % U32)) = true
    · rw [if_pos hc] at h
      have : off = k := by injection h
      omega
    · rw [if_neg (by simp [hc])] at h
      have := ih (off + 1) k h
      omega

/-! ## Claim theorems -/

/-- C4: for every epoch, generateTOTP produces a value strictly below
1,000,000 and coincides with the construction described by the spec:
keyed 256-bit digest of the 8-byte big-endian serialization of the epoch,
offset taken from the low nibble of the last digest byte, 4 bytes at that
offset read big-endian with the top bit cleared, reduced mod 1,000,000. -/
theorem c4_totp_construction (C : CryptoLib) (epoch : Nat) :
    generateTOTP C epoch < 1000000 ∧ generateTOTP C epoch = timeCodeSpec C epoch := by
  constructor
  · exact Nat.mod_lt _ (by norm_num)
  · unfold generateTOTP timeCodeSpec
    have hlen : (C.hmacSha256 (serializeEpochBE (epoch % U32))).length = 32 :=
      C.hmacSha256_length _
    have hb : ∀ i, (C.hmacSha256 (serializeEpochBE (epoch % U32))).getD i 0 &&& 255
        = (C.hmacSha256 (serializeEpochBE (epoch % U32))).getD i 0 :=
      fun i => byteMask255 _ (getD_lt_of_bytes _ (C.hmacSha256_bytes _) i)
    simp only [hlen, hb]

/-- C9: a packet whose sender or receiver identity does not match the
paired identities is rejected as RejectedIdMismatch before any call to
generateRollingCode or generateTOTP, and nothing else happens: the
authentication state is unchanged, nothing is saved and no resync signal
is sent. -/
theorem c9_id_mismatch_early_exit (C : CryptoLib) (s : AuthState) (pkt : Packet)
    (millis : Nat) (h : pkt.carID ≠ CAR_ID ∨ pkt.keyfobID ≠ KEYFOB_ID) :
    validatePacket C s pkt millis = ⟨.RejectedIdMismatch, s, false, false, 0, 0⟩ := by
  unfold validatePacket
  rw [if_pos h]

/-- Witness for c9_id_mismatch_early_exit at a concrete input. -/
theorem c9_id_mismatch_early_exit_witness :
    validatePacket sampleCrypto ⟨5, 5⟩ ⟨1, 2, 0, 3, 4⟩ 0
      = ⟨.RejectedIdMismatch, ⟨5, 5⟩, false, false, 0, 0⟩ :=
  c9_id_mismatch_early_exit sampleCrypto ⟨5, 5⟩ ⟨1, 2, 0, 3, 4⟩ 0 (by decide)

/-- C7: at startup, a loaded counter equal to the erased sentinel
0xFFFFFFFF or above the guard bound 0xFFFFFF00 is reset to zero and
immediately persisted; any other loaded value is used as-is (and not
persisted again). -/
theorem c7_startup_recovery (loaded : Nat) :
    (loaded = 0xFFFFFFFF ∨ 0xFFFFFF00 < loaded → startupState loaded = (⟨0, 0⟩, true)) ∧
    (loaded ≠ 0xFFFFFFFF ∧ loaded ≤ 0xFFFFFF00 → startupState loaded = (⟨loaded, loaded⟩, false)) := by
  constructor
  · intro h
    unfold startupState
    rw [if_pos h]
  · intro h
    unfold startupState
    rw [if_neg (by omega)]

/-- Witness for c7_startup_recovery: the sentinel is reset and persisted,
a guard-band value is reset and persisted, and an ordinary value is kept. -/
theorem c7_startup_recovery_witness :
    startupState 0xFFFFFFFF = (⟨0, 0⟩, true) ∧
    startupState 0xFFFFFF01 = (⟨0, 0⟩, true) ∧
    startupState 12345 = (⟨12345, 12345⟩, false) :=
  ⟨(c7_startup_recovery 0xFFFFFFFF).1 (by omega),
   (c7_startup_recovery 0xFFFFFF01).1 (by omega),
   (c7_startup_recovery 12345).2 (by omega)⟩

lemma commitState_fst_L (s : AuthState) (t : Nat) :
    (commitState s t).1.lastRollingCounter = (t + 1) % U32 := by
  simp only [commitState]
  split <;> rfl

lemma validate_match_shape (C : CryptoLib) (s : AuthState) (pkt : Packet)
    (millis k : Nat)
    (hid1 : pkt.carID = CAR_ID) (hid2 : pkt.keyfobID = KEYFOB_ID)
    (hw : windowSearch C s.lastRollingCounter pkt.rollingCode 0 ROLLING_WINDOW = some k) :
    validatePacket C s pkt millis =
      (if pkt.totp = generateTOTP C ((millis % U32) / 1000 / 30) then
        ⟨.Accepted, (commitState s ((s.lastRollingCounter + k) % U32)).1,
         (commitState s ((s.lastRollingCounter + k) % U32)).2, false, k + 1, 1⟩
       else if pkt.totp = generateTOTP C (sub32 ((millis % U32) / 1000 / 30) 1) then
        ⟨.Accepted, (commitState s ((s.lastRollingCounter + k) % U32)).1,
         (commitState s ((s.lastRollingCounter + k) % U32)).2, false, k + 1, 2⟩
       else
        ⟨.RejectedTimeCodeMismatch, (commitState s ((s.lastRollingCounter + k) % U32)).1,
         (commitState s ((s.lastRollingCounter + k) % U32)).2, true, k + 1, 2⟩) := by
  unfold validatePacket
  rw [if_neg (by simp [hid1, hid2]), hw]

/-- C2: with matching identities, a packet carrying the rolling code of
candidate L + k for some k below ROLLING_WINDOW (k the first matching
offset, since the search stops at the first match) and a time code equal
to that of the current or previous epoch is Accepted, and the counter
becomes L + k + 1 in wrapping 32-bit arithmetic. -/
theorem c2_window_acceptance (C : CryptoLib) (s : AuthState) (pkt : Packet)
    (millis k : Nat)
    (hid1 : pkt.carID = CAR_ID) (hid2 : pkt.keyfobID = KEYFOB_ID)
    (hk : k < 256)
    (hrc : pkt.rollingCode = generateRollingCode C ((s.lastRollingCounter + k) % U32))
    (hfirst : ∀ j < k, pkt.rollingCode ≠ generateRollingCode C ((s.lastRollingCounter + j) % U32))
    (htc : pkt.totp = generateTOTP C ((millis % U32) / 1000 / 30) ∨
           pkt.totp = generateTOTP C (sub32 ((millis % U32) / 1000 / 30) 1)) :
    (validatePacket C s pkt millis).outcome = .Accepted ∧
    (validatePacket C s pkt millis).state.lastRollingCounter
      = (s.lastRollingCounter + k + 1) % U32 := by
  have hw : windowSearch C s.lastRollingCounter pkt.rollingCode 0 ROLLING_WINDOW = some k :=
    windowSearch_eq_some C _ _ ROLLING_WINDOW 0 k (Nat.zero_le k) (by simp [ROLLING_WINDOW]; omega)
      hrc (fun j _ h2 => hfirst j h2)
  rw [validate_match_shape C s pkt millis k hid1 hid2 hw]
  by_cases h1 : pkt.totp = generateTOTP C ((millis % U32) / 1000 / 30)
  · rw [if_pos h1]
    exact ⟨rfl, by rw [commitState_fst_L, Nat.mod_add_mod]⟩
  · rcases htc with h | h
    · exact absurd h h1
    · rw [if_neg h1, if_pos h]
      exact ⟨rfl, by rw [commitState_fst_L, Nat.mod_add_mod]⟩

/-- Witness for c2_window_acceptance: counter 0, first match at offset 3,
time code of the current epoch. -/
theorem c2_window_acceptance_witness :
    (validatePacket sampleCrypto ⟨0, 0⟩
        ⟨CAR_ID, KEYFOB_ID, 0, generateRollingCode sampleCrypto 3,
         generateTOTP sampleCrypto 0⟩ 0).outcome = .Accepted ∧
    (validatePacket sampleCrypto ⟨0, 0⟩
        ⟨CAR_ID, KEYFOB_ID, 0, generateRollingCode sampleCrypto 3,
         generateTOTP sampleCrypto 0⟩ 0).state.lastRollingCounter = (0 + 3 + 1) % U32 :=
  c2_window_acceptance sampleCrypto ⟨0, 0⟩ _ 0 3 rfl rfl (by norm_num)
    (by decide) (by decide) (Or.inl (by decide))

/-- C3: with matching identities, a packet whose rolling code is the code
of the already-consumed candidate L - 1 or of the out-of-window candidate
L + 256 — and which collides with no candidate inside the window — is
rejected as ReplayWindowExhausted with the state unchanged, nothing
saved and no resynchronization signal. -/
theorem c3_window_exhaustion (C : CryptoLib) (s : AuthState) (pkt : Packet)
    (millis : Nat)
    (hid1 : pkt.carID = CAR_ID) (hid2 : pkt.keyfobID = KEYFOB_ID)
    (hrc : pkt.rollingCode = generateRollingCode C (sub32 s.lastRollingCounter 1) ∨
           pkt.rollingCode = generateRollingCode C ((s.lastRollingCounter + 256) % U32))
    (hnone : ∀ k < 256,
      pkt.rollingCode ≠ generateRollingCode C ((s.lastRollingCounter + k) % U32)) :
    validatePacket C s pkt millis = ⟨.ReplayWindowExhausted, s, false, false, 256, 0⟩ := by
  have hw : windowSearch C s.lastRollingCounter pkt.rollingCode 0 ROLLING_WINDOW = none :=
    windowSearch_eq_none C _ _ ROLLING_WINDOW 0
      (fun j _ h2 => hnone j (by simpa [ROLLING_WINDOW] using h2))
  unfold validatePacket
  rw [if_neg (by simp [hid1, hid2]), hw]
  rfl

/-- Witness for c3_window_exhaustion: counter 1, packet carrying the code
of the consumed candidate 0, which matches nothing in the window. -/
theorem c3_window_exhaustion_witness :
    validatePacket sampleCrypto ⟨1, 1⟩
        ⟨CAR_ID, KEYFOB_ID, 0, generateRollingCode sampleCrypto 0, 0⟩ 0
      = ⟨.ReplayWindowExhausted, ⟨1, 1⟩, false, false, 256, 0⟩ :=
  c3_window_exhaustion sampleCrypto ⟨1, 1⟩ _ 0 rfl rfl
    (Or.inl (by decide)) (by decide)

/-- C5: with matching identities and the rolling code matching first at
offset k, when the clock maps to epoch Ep, a time code for epoch Ep - 1
is accepted, and a time code for epoch Ep - 2 that differs from the codes
of epochs Ep and Ep - 1 is rejected with a time-code mismatch. -/
theorem c5_epoch_tolerance (C : CryptoLib) (s : AuthState) (pkt : Packet)
    (millis k Ep : Nat)
    (hid1 : pkt.carID = CAR_ID) (hid2 : pkt.keyfobID = KEYFOB_ID)
    (hk : k < 256)
    (hrc : pkt.rollingCode = generateRollingCode C ((s.lastRollingCounter + k) % U32))
    (hfirst : ∀ j < k, pkt.rollingCode ≠ generateRollingCode C ((s.lastRollingCounter + j) % U32))
    (hm : millis < U32) (hE : millis / 1000 / 30 = Ep) (hE2 : 2 ≤ Ep) :
    (pkt.totp = generateTOTP C (Ep - 1) →
      (validatePacket C s pkt millis).outcome = .Accepted) ∧
    (pkt.totp = generateTOTP C (Ep - 2) ∧
       generateTOTP C (Ep - 2) ≠ generateTOTP C Ep ∧
       generateTOTP C (Ep - 2) ≠ generateTOTP C (Ep - 1) →
      (validatePacket C s pkt millis).outcome = .RejectedTimeCodeMismatch) := by
  have hw : windowSearch C s.lastRollingCounter pkt.rollingCode 0 ROLLING_WINDOW = some k :=
    windowSearch_eq_some C _ _ ROLLING_WINDOW 0 k (Nat.zero_le k)
      (by simp [ROLLING_WINDOW]; omega) hrc (fun j _ h2 => hfirst j h2)
  have hEpLt : Ep < U32 := by simp only [U32] at *; omega
  have hEp : (millis % U32) / 1000 / 30 = Ep := by
    rw [Nat.mod_eq_of_lt hm]; exact hE
  have hsub : sub32 Ep 1 = Ep - 1 := sub32_small Ep 1 hEpLt (by omega)
  rw [validate_match_shape C s pkt millis k hid1 hid2 hw, hEp, hsub]
  constructor
  · intro h
    by_cases h0 : pkt.totp = generateTOTP C Ep
    · rw [if_pos h0]
    · rw [if_neg h0, if_pos h]
  · rintro ⟨h, hne1, hne2⟩
    rw [if_neg (by rw [h]; exact hne1), if_neg (by rw [h]; exact hne2)]

/-- Witness for c5_epoch_tolerance at epoch 2: the code of epoch 1 is
accepted, the code of epoch 0 is rejected. -/
theorem c5_epoch_tolerance_witness :
    (validatePacket sampleCrypto ⟨0, 0⟩
        ⟨CAR_ID, KEYFOB_ID, 0, generateRollingCode sampleCrypto 0,
         generateTOTP sampleCrypto 1⟩ 60000).outcome = .Accepted ∧
    (validatePacket sampleCrypto ⟨0, 0⟩
        ⟨CAR_ID, KEYFOB_ID, 0, generateRollingCode sampleCrypto 0,
         generateTOTP sampleCrypto 0⟩ 60000).outcome = .RejectedTimeCodeMismatch :=
  ⟨(c5_epoch_tolerance sampleCrypto ⟨0, 0⟩ _ 60000 0 2 rfl rfl (by norm_num)
      (by decide) (fun j hj => absurd hj (Nat.not_lt_zero j)) (by decide) (by decide)
      (by norm_num)).1 rfl,
   (c5_epoch_tolerance sampleCrypto ⟨0, 0⟩ _ 60000 0 2 rfl rfl (by norm_num)
      (by decide) (fun j hj => absurd hj (Nat.not_lt_zero j)) (by decide) (by decide)
      (by norm_num)).2 ⟨rfl, by decide, by decide⟩⟩

/-- C1 does not hold on the code: on a rolling-code match the source
assigns lastRollingCounter = testCounter + 1 (car.ino line 150) before
checking the TOTP, so a packet with a valid rolling code and an invalid
time code is rejected with RejectedTimeCodeMismatch yet still consumes
the counter.  Here the counter advances from 100 to 101 on a rejected
packet. -/
theorem c1_mismatch_consumes_counter :
    (validatePacket sampleCrypto ⟨100, 100⟩
        ⟨CAR_ID, KEYFOB_ID, 0, generateRollingCode sampleCrypto 100, 999999999⟩
        60000).outcome = .RejectedTimeCodeMismatch ∧
    (validatePacket sampleCrypto ⟨100, 100⟩
        ⟨CAR_ID, KEYFOB_ID, 0, generateRollingCode sampleCrypto 100, 999999999⟩
        60000).state = ⟨101, 100⟩ := by
  constructor
  · decide
  · decide

/-- C8 amended: away from the 32-bit wrap (lastRollingCounter + 256 below
2^32), a validation call never decreases lastRollingCounter, and the
invariant lastPersistedCounter less-or-equal lastAcceptedCounter is
preserved from the pre-state to the post-state. -/
theorem c8_counter_invariants_no_wrap (C : CryptoLib) (s : AuthState) (pkt : Packet)
    (millis : Nat)
    (hinv : s.lastSavedCounter ≤ s.lastRollingCounter)
    (hnw : s.lastRollingCounter + 256 < U32) :
    s.lastRollingCounter ≤ (validatePacket C s pkt millis).state.lastRollingCounter ∧
    (validatePacket C s pkt millis).state.lastSavedCounter
      ≤ (validatePacket C s pkt millis).state.lastRollingCounter := by
  unfold validatePacket
  by_cases hid : pkt.carID ≠ CAR_ID ∨ pkt.keyfobID ≠ KEYFOB_ID
  · rw [if_pos hid]
    exact ⟨le_rfl, hinv⟩
  · rw [if_neg hid]
    cases hw : windowSearch C s.lastRollingCounter pkt.rollingCode 0 ROLLING_WINDOW with
    | none => exact ⟨le_rfl, hinv⟩
    | some off =>
      have hb := windowSearch_bounds C s.lastRollingCounter pkt.rollingCode
        ROLLING_WINDOW 0 off hw
      simp only [ROLLING_WINDOW] at hb
      have hL : (s.lastRollingCounter + off) % U32 = s.lastRollingCounter + off :=
        Nat.mod_eq_of_lt (by omega)
      have hL2 : (s.lastRollingCounter + off + 1) % U32 = s.lastRollingCounter + off + 1 :=
        Nat.mod_eq_of_lt (by omega)
      simp only [commitState, hL, hL2]
      split_ifs <;> refine ⟨?_, ?_⟩ <;> simp only [] <;> omega

/-- Witness for c8_counter_invariants_no_wrap at a concrete input. -/
theorem c8_counter_invariants_no_wrap_witness :
    (0 : Nat) ≤ (validatePacket sampleCrypto ⟨0, 0⟩ ⟨0, 0, 0, 0, 0⟩ 0).state.lastRollingCounter ∧
    (validatePacket sampleCrypto ⟨0, 0⟩ ⟨0, 0, 0, 0, 0⟩ 0).state.lastSavedCounter
      ≤ (validatePacket sampleCrypto ⟨0, 0⟩ ⟨0, 0, 0, 0, 0⟩ 0).state.lastRollingCounter :=
  c8_counter_invariants_no_wrap sampleCrypto ⟨0, 0⟩ ⟨0, 0, 0, 0, 0⟩ 0 le_rfl
    (by norm_num [U32])

/-- Counterexample to C8 as stated: the state with both counters at
0xFFFFFFFF is reachable (boot with the loaded value 0xFFFFFF00 — which
the startup guard keeps — then accept the code of candidate 0xFFFFFFFE,
which also persists the counter), and from it a packet carrying the code
of candidate 0xFFFFFFFF wraps lastRollingCounter to 0, strictly below its
pre-state value, and leaves lastPersistedCounter above
lastRollingCounter. -/
theorem c8_wraparound_cex :
    Reachable sampleCrypto ⟨0xFFFFFFFF, 0xFFFFFFFF⟩ ∧
    (validatePacket sampleCrypto ⟨0xFFFFFFFF, 0xFFFFFFFF⟩
        ⟨CAR_ID, KEYFOB_ID, 0, generateRollingCode sampleCrypto 0xFFFFFFFF,
         generateTOTP sampleCrypto 0⟩ 0).state.lastRollingCounter < 0xFFFFFFFF ∧
    ¬ ((validatePacket sampleCrypto ⟨0xFFFFFFFF, 0xFFFFFFFF⟩
          ⟨CAR_ID, KEYFOB_ID, 0, generateRollingCode sampleCrypto 0xFFFFFFFF,
           generateTOTP sampleCrypto 0⟩ 0).state.lastSavedCounter
        ≤ (validatePacket sampleCrypto ⟨0xFFFFFFFF, 0xFFFFFFFF⟩
            ⟨CAR_ID, KEYFOB_ID, 0, generateRollingCode sampleCrypto 0xFFFFFFFF,
             generateTOTP sampleCrypto 0⟩ 0).state.lastRollingCounter) := by
  refine ⟨?_, by decide, by decide⟩
  have h1 : Reachable sampleCrypto ⟨0xFFFFFF00, 0xFFFFFF00⟩ := by
    have h := @Reachable.boot sampleCrypto 0xFFFFFF00
    rwa [show (startupState 0xFFFFFF00).1 = ⟨0xFFFFFF00, 0xFFFFFF00⟩ from by decide] at h
  have h2 := Reachable.step h1
    ⟨CAR_ID, KEYFOB_ID, 0, generateRollingCode sampleCrypto 0xFFFFFFFE,
     generateTOTP sampleCrypto 0⟩ 0
  rwa [show (validatePacket sampleCrypto ⟨0xFFFFFF00, 0xFFFFFF00⟩
      ⟨CAR_ID, KEYFOB_ID, 0, generateRollingCode sampleCrypto 0xFFFFFFFE,
       generateTOTP sampleCrypto 0⟩ 0).state = ⟨0xFFFFFFFF, 0xFFFFFFFF⟩ from by decide] at h2

lemma accept_step (C : CryptoLib) (S i : Nat) (pkt : Packet) (millis : Nat)
    (hS : S < U32) (hi : i + 1 < U32)
    (hid1 : pkt.carID = CAR_ID) (hid2 : pkt.keyfobID = KEYFOB_ID)
    (hrc : pkt.rollingCode = generateRollingCode C ((S + i) % U32))
    (htc : pkt.totp = generateTOTP C ((millis % U32) / 1000 / 30)) :
    validatePacket C ⟨(S + i) % U32, S⟩ pkt millis
      = ⟨.Accepted,
         ⟨(S + i + 1) % U32, if 10 ≤ i + 1 then (S + i + 1) % U32 else S⟩,
         decide (10 ≤ i + 1), false, 1, 1⟩ := by
  have hL : ((S + i) % U32 + 0) % U32 = (S + i) % U32 := by
    simp only [U32] at *; omega
  have hw : windowSearch C ((S + i) % U32) pkt.rollingCode 0 ROLLING_WINDOW = some 0 :=
    windowSearch_eq_some C _ _ ROLLING_WINDOW 0 0 le_rfl (by simp [ROLLING_WINDOW])
      (by rw [hL]; exact hrc) (fun j _ hj => absurd hj (Nat.not_lt_zero j))
  rw [validate_match_shape C ⟨(S + i) % U32, S⟩ pkt millis 0 hid1 hid2 hw, if_pos htc]
  have hNL : (((S + i) % U32 + 0) % U32 + 1) % U32 = (S + i + 1) % U32 := by
    simp only [U32] at *; omega
  have hsub : sub32 ((((S + i) % U32 + 0) % U32 + 1) % U32) S = i + 1 := by
    simp only [sub32, U32] at *; omega
  simp only [commitState, EEPROM_SAVE_INTERVAL]
  rw [hsub, hNL]
  by_cases hc : 10 ≤ i + 1
  · rw [if_pos hc, decide_eq_true hc, if_pos hc]
  · rw [if_neg hc, decide_eq_false hc, if_neg hc]

lemma runSeq_accept_aux (C : CryptoLib) (S millis : Nat) (f : Nat → Packet) (hS : S < U32)
    (hf : ∀ i < 10, (f i).carID = CAR_ID ∧ (f i).keyfobID = KEYFOB_ID ∧
          (f i).rollingCode = generateRollingCode C ((S + i) % U32) ∧
          (f i).totp = generateTOTP C ((millis % U32) / 1000 / 30)) :
    ∀ n i, i + n = 10 →
      (runSeq C ⟨(S + i) % U32, S⟩
          ((List.range' i n).map (fun j => (f j, millis)))).map
          (fun r => (r.outcome, r.didSave))
        = (List.range' i n).map (fun j => (Outcome.Accepted, decide (j = 9))) := by
  intro n
  induction n with
  | zero => intro i _; rfl
  | succ m ih =>
    intro i hi
    obtain ⟨h1, h2, h3, h4⟩ := hf i (by omega)
    rw [List.range'_succ i m 1]
    simp only [List.map_cons, runSeq]
    rw [accept_step C S i (f i) millis hS (by simp only [U32] at *; omega) h1 h2 h3 h4]
    simp only [List.map_cons]
    congr 1
    · simp only [Prod.mk.injEq, true_and]
      rw [decide_eq_decide]
      omega
    · rcases m with _ | m2
      · rfl
      · rw [if_neg (by omega)]
        exact ih (i + 1) (by omega)

/-- C6: starting with lastRollingCounter = lastSavedCounter = S, a run of
ten validations whose packets carry the rolling codes of the consecutive
candidates S, S+1, ..., S+9 and a valid time code is ten acceptances, and
the EEPROM save runs exactly once, at the tenth acceptance. -/
theorem c6_persistence_coalescing (C : CryptoLib) (S millis : Nat) (f : Nat → Packet)
    (hS : S < U32)
    (hf : ∀ i < 10, (f i).carID = CAR_ID ∧ (f i).keyfobID = KEYFOB_ID ∧
          (f i).rollingCode = generateRollingCode C ((S + i) % U32) ∧
          (f i).totp = generateTOTP C ((millis % U32) / 1000 / 30)) :
    (runSeq C ⟨S, S⟩ ((List.range 10).map (fun i => (f i, millis)))).map
        (fun r => (r.outcome, r.didSave))
      = [(.Accepted, false), (.Accepted, false), (.Accepted, false), (.Accepted, false),
         (.Accepted, false), (.Accepted, false), (.Accepted, false), (.Accepted, false),
         (.Accepted, false), (.Accepted, true)] := by
  have h := runSeq_accept_aux C S millis f hS hf 10 0 rfl
  rw [show (S + 0) % U32 = S from by simp only [U32] at *; omega] at h
  rw [List.range_eq_range' 10, h]
  rfl

/-- Witness for c6_persistence_coalescing with S = 0. -/
theorem c6_persistence_coalescing_witness :
    (runSeq sampleCrypto ⟨0, 0⟩ ((List.range 10).map
        (fun i => (⟨CAR_ID, KEYFOB_ID, 0,
                    generateRollingCode sampleCrypto ((0 + i) % U32),
                    generateTOTP sampleCrypto ((0 % U32) / 1000 / 30)⟩, 0)))).map
        (fun r => (r.outcome, r.didSave))
      = [(.Accepted, false), (.Accepted, false), (.Accepted, false), (.Accepted, false),
         (.Accepted, false), (.Accepted, false), (.Accepted, false), (.Accepted, false),
         (.Accepted, false), (.Accepted, true)] :=
  c6_persistence_coalescing sampleCrypto 0 0
    (fun i => ⟨CAR_ID, KEYFOB_ID, 0,
               generateRollingCode sampleCrypto ((0 + i) % U32),
               generateTOTP sampleCrypto ((0 % U32) / 1000 / 30)⟩)
    (by norm_num [U32])
    (fun i _ => ⟨rfl, rfl, rfl, rfl⟩)

/-- C10 amended: the receiver parses and validates exactly the frames
whose length equals sizeof(Packet) = 20 (17 payload bytes plus 3
alignment-padding bytes); a frame of any other length — including 17 —
is discarded as a framing error before the Validator runs, with no state
change. -/
theorem c10_frame_length_gate (C : CryptoLib) (s : AuthState) (frame : List Nat)
    (millis : Nat) :
    (frame.length ≠ sizeofPacket →
      processFrame C s frame millis = (.framingError, s)) ∧
    (frame.length = sizeofPacket →
      processFrame C s frame millis
        = (.validated (validatePacket C s (parsePacket frame) millis),
           (validatePacket C s (parsePacket frame) millis).state)) := by
  constructor
  · intro h
    unfold processFrame
    rw [if_neg h]
  · intro h
    unfold processFrame
    rw [if_pos h]

/-- Witness for c10_frame_length_gate: a 3-byte frame is dropped, a
20-byte frame reaches the validator. -/
theorem c10_frame_length_gate_witness :
    processFrame sampleCrypto ⟨0, 0⟩ [1, 2, 3] 0 = (.framingError, ⟨0, 0⟩) ∧
    processFrame sampleCrypto ⟨0, 0⟩ (List.replicate 20 1) 0
      = (.validated (validatePacket sampleCrypto ⟨0, 0⟩
           (parsePacket (List.replicate 20 1)) 0),
         (validatePacket sampleCrypto ⟨0, 0⟩ (parsePacket (List.replicate 20 1)) 0).state) :=
  ⟨(c10_frame_length_gate sampleCrypto ⟨0, 0⟩ [1, 2, 3] 0).1 (by decide),
   (c10_frame_length_gate sampleCrypto ⟨0, 0⟩ (List.replicate 20 1) 0).2 (by decide)⟩

/-- Counterexample to C10 as stated: a 17-byte frame is NOT treated as a
well-formed packet — it is discarded as a framing error because
sizeof(Packet) is 20, not 17 — while a 20-byte frame (a length other than
17) does reach the Validator instead of being discarded. -/
theorem c10_seventeen_byte_cex :
    processFrame sampleCrypto ⟨0, 0⟩ (List.replicate 17 0) 0 = (.framingError, ⟨0, 0⟩) ∧
    (processFrame sampleCrypto ⟨0, 0⟩ (List.replicate 20 0) 0).1
      = .validated ⟨.RejectedIdMismatch, ⟨0, 0⟩, false, false, 0, 0⟩ := by
  constructor
  · decide
  · decide
